import Mathlib

/-!
Shallow embedding of the Honeypot-API conversational honeypot service
(`key_manager.py`, `persona_manager.py`, `main.py`) and proofs of the
spec claims about it.

Conventions of the embedding:
* Python strings are Lean `String`s; Python `str.lower()` is modelled
  character-wise with `Char.toLower` (both lower only the ASCII letters
  relevant to the trigger keywords); Python's substring test `sub in s`
  is `strContains s sub`.
* Network calls are replaced by outcome oracles: each attempt against a
  provider either succeeds with a reply text or fails in one of the ways
  the code distinguishes (HTTP 429 rate-limit, network error, timeout,
  malformed response body, non-2xx status).
* Mutable object state (`KeyManager.current_groq_index`, the per-session
  dictionaries, the global `sessions` map) is passed and returned
  explicitly.
-/

namespace Honeypot

/-- Substring test: Python `sub in s`. -/
def strContains (s sub : String) : Bool := decide (sub.data <:+: s.data)

/-- Character-wise lower-casing: Python `s.lower()` (ASCII letters). -/
def lowerString (s : String) : String := ⟨s.data.map Char.toLower⟩

/-! ## `key_manager.py`: `KeyManager`

The outcome of one HTTP request to a provider, as the code
distinguishes them: a 2xx response with a well-formed JSON body
(`success`), a 429 status (`rateLimit`, handled at line 63 of
`key_manager.py`), and the failure modes that all surface as a raised
exception inside the `try` block — network errors, timeouts, bodies
that fail JSON extraction, and non-2xx statuses turned into exceptions
by `raise_for_status()`. -/
inductive Outcome where
  | success (text : String)
  | rateLimit
  | netError
  | timeout
  | malformed
  | non2xx
deriving DecidableEq, Repr

/-- Whether the outcome carries a reply (2xx, well-formed body). -/
def Outcome.isSuccess : Outcome → Bool
  | .success _ => true
  | _ => false

/-- State of `KeyManager`: the filtered Groq key pool, the rotation
cursor, and the optional OpenRouter key (`os.getenv` gives `None` when
the variable is unset). -/
structure KeyManager where
  groq_keys : List String
  current_groq_index : Nat
  openrouter_key : Option String
deriving DecidableEq, Repr

/-- `KeyManager._get_current_groq_key`: `None` when the pool is empty,
otherwise `self.groq_keys[self.current_groq_index]`.  (The model
returns `none` instead of raising `IndexError` when the cursor is out
of range; that state is unreachable, see `KeyManager.WF`.) -/
def KeyManager.getCurrentGroqKey (km : KeyManager) : Option String :=
  if km.groq_keys = [] then none
  else km.groq_keys.get? km.current_groq_index

/-- `KeyManager._rotate_groq_key`: advance the cursor modulo the pool
size; no-op on the empty pool. -/
def KeyManager.rotateGroqKey (km : KeyManager) : KeyManager :=
  if km.groq_keys = [] then km
  else { km with current_groq_index :=
          (km.current_groq_index + 1) % km.groq_keys.length }

/-- Well-formedness invariant of a `KeyManager` state: the cursor is in
range whenever the pool is non-empty.  Holds at construction
(`current_groq_index = 0` and the pool non-empty or the branch vacuous)
and is preserved by rotation. -/
def KeyManager.WF (km : KeyManager) : Prop :=
  km.groq_keys ≠ [] → km.current_groq_index < km.groq_keys.length

/-- The degraded message returned when the pool is exhausted and no
OpenRouter key is configured (`key_manager.py` line 81). -/
def noKeysMsg : String := "Server Error: No valid API keys available."

/-- The degraded message returned when the OpenRouter failover request
itself fails (`key_manager.py` line 100). -/
def connectMsg : String := "I am having trouble connecting. Can you say that again?"

/-- The Groq loop of `KeyManager.chat_completion` (`for _ in
range(len(self.groq_keys))`).  `fuel` is the number of remaining loop
iterations, `t` counts the attempts already issued in this call (it
indexes the oracle `primary`).  Per iteration: read the current key;
`break` when it is falsy (`None` or `""`); on a successful response
return its text without rotating; on a 429 or any raised exception
rotate and continue. -/
def groqLoop (primary : Nat → Outcome) :
    Nat → Nat → KeyManager → Option String × KeyManager
  | 0, _, km => (none, km)
  | fuel + 1, t, km =>
    match km.getCurrentGroqKey with
    | none => (none, km)
    | some k =>
      if k = "" then (none, km)
      else
        match primary t with
        | .success s => (some s, km)
        | _ => groqLoop primary fuel (t + 1) km.rotateGroqKey

/-- The OpenRouter failover tail of `KeyManager.chat_completion`
(lines 79–100): a falsy key yields the fixed `noKeysMsg`; otherwise one
request is issued and any failure yields the fixed `connectMsg`. -/
def openRouterFallback (key : Option String) (secondary : Outcome) : String :=
  match key with
  | none => noKeysMsg
  | some k =>
    if k = "" then noKeysMsg
    else
      match secondary with
      | .success s => s
      | _ => connectMsg

/-- `KeyManager.chat_completion`: walk the Groq pool (at most one
attempt per credential), then fail over to OpenRouter.  `primary t`
is the outcome of the `t`-th Groq request of this call, `secondary`
the outcome of the OpenRouter request (issued only if reached).
Returns the reply text together with the post-call manager state. -/
def KeyManager.chat_completion (km : KeyManager) (primary : Nat → Outcome)
    (secondary : Outcome) : String × KeyManager :=
  match groqLoop primary km.groq_keys.length 0 km with
  | (some s, km1) => (s, km1)
  | (none, km1) => (openRouterFallback km1.openrouter_key secondary, km1)

theorem rotateGroqKey_groq_keys (km : KeyManager) :
    km.rotateGroqKey.groq_keys = km.groq_keys := by
  unfold KeyManager.rotateGroqKey; split <;> rfl

theorem rotateGroqKey_openrouter (km : KeyManager) :
    km.rotateGroqKey.openrouter_key = km.openrouter_key := by
  unfold KeyManager.rotateGroqKey; split <;> rfl

theorem iterate_rotate_groq_keys (km : KeyManager) (n : Nat) :
    (KeyManager.rotateGroqKey^[n] km).groq_keys = km.groq_keys := by
  induction n generalizing km with
  | zero => rfl
  | succ n ih =>
    rw [Function.iterate_succ_apply, ih, rotateGroqKey_groq_keys]

theorem iterate_rotate_openrouter (km : KeyManager) (n : Nat) :
    (KeyManager.rotateGroqKey^[n] km).openrouter_key = km.openrouter_key := by
  induction n generalizing km with
  | zero => rfl
  | succ n ih =>
    rw [Function.iterate_succ_apply, ih, rotateGroqKey_openrouter]

theorem rotateGroqKey_index (km : KeyManager) (hne : km.groq_keys ≠ []) :
    km.rotateGroqKey.current_groq_index =
      (km.current_groq_index + 1) % km.groq_keys.length := by
  unfold KeyManager.rotateGroqKey
  simp [hne]

/-- The cursor after `n` rotations: `(start + n) % N`. -/
theorem iterate_rotate_index (km : KeyManager) (hne : km.groq_keys ≠ [])
    (hwf : km.current_groq_index < km.groq_keys.length) (n : Nat) :
    (KeyManager.rotateGroqKey^[n] km).current_groq_index =
      (km.current_groq_index + n) % km.groq_keys.length := by
  induction n with
  | zero =>
    simpa using (Nat.mod_eq_of_lt hwf).symm
  | succ n ih =>
    rw [Function.iterate_succ_apply' , rotateGroqKey_index, ih]
    · rw [iterate_rotate_groq_keys, Nat.mod_add_mod, Nat.add_assoc]
    · rw [iterate_rotate_groq_keys]; exact hne

/-- A reply returned by the Groq loop came from one of its attempts. -/
theorem groqLoop_sound (primary : Nat → Outcome) :
    ∀ fuel t km s km1, groqLoop primary fuel t km = (some s, km1) →
      ∃ u, t ≤ u ∧ u < t + fuel ∧ primary u = Outcome.success s := by
  intro fuel
  induction fuel with
  | zero => intro t km s km1 h; simp [groqLoop] at h
  | succ fuel ih =>
    intro t km s km1 h
    unfold groqLoop at h
    rcases hk : km.getCurrentGroqKey with _ | k
    · rw [hk] at h; simp at h
    · simp only [hk] at h
      by_cases hke : k = ""
      · rw [if_pos hke] at h; simp at h
      · rw [if_neg hke] at h
        rcases hp : primary t with s2 | _ | _ | _ | _ | _ <;> simp only [hp] at h
        · simp only [Prod.mk.injEq, Option.some.injEq] at h
          exact ⟨t, Nat.le_refl t, by omega, by rw [hp, h.1]⟩
        all_goals
          obtain ⟨u, hu1, hu2, hu3⟩ := ih (t + 1) km.rotateGroqKey s km1 h
          exact ⟨u, by omega, by omega, hu3⟩

/-- The Groq loop never touches the OpenRouter key. -/
theorem groqLoop_openrouter (primary : Nat → Outcome) :
    ∀ fuel t km, ((groqLoop primary fuel t km).2).openrouter_key =
      km.openrouter_key := by
  intro fuel
  induction fuel with
  | zero => intro t km; rfl
  | succ fuel ih =>
    intro t km
    unfold groqLoop
    rcases hk : km.getCurrentGroqKey with _ | k
    · rfl
    · by_cases hke : k = ""
      · simp only []
        rw [if_pos hke]
      · simp only []
        rw [if_neg hke]
        rcases hp : primary t with s2 | _ | _ | _ | _ | _
        · rfl
        all_goals
          simp only []
          rw [ih (t + 1) km.rotateGroqKey, rotateGroqKey_openrouter]

/-- In a state satisfying the invariant, with a pool of non-falsy keys,
the current key is defined and non-empty. -/
theorem getCurrentGroqKey_good (km : KeyManager) (hne : km.groq_keys ≠ [])
    (hkeys : ∀ k ∈ km.groq_keys, k ≠ "")
    (hwf : km.current_groq_index < km.groq_keys.length) :
    ∃ k, km.getCurrentGroqKey = some k ∧ k ≠ "" := by
  refine ⟨km.groq_keys.get ⟨km.current_groq_index, hwf⟩, ?_, ?_⟩
  · unfold KeyManager.getCurrentGroqKey
    rw [if_neg hne]
    exact List.get?_eq_get hwf
  · exact hkeys _ (List.get_mem _ _ _)

/-- `n` consecutive non-successful attempts advance the loop by `n`
iterations, rotating the cursor once per attempt. -/
theorem groqLoop_skip (primary : Nat → Outcome) :
    ∀ n fuel t km, n ≤ fuel →
      km.groq_keys ≠ [] → (∀ k ∈ km.groq_keys, k ≠ "") →
      km.current_groq_index < km.groq_keys.length →
      (∀ u, t ≤ u → u < t + n → (primary u).isSuccess = false) →
      groqLoop primary fuel t km =
        groqLoop primary (fuel - n) (t + n) (KeyManager.rotateGroqKey^[n] km) := by
  intro n
  induction n with
  | zero => intro fuel t km _ _ _ _ _; rfl
  | succ n ih =>
    intro fuel t km hn hne hkeys hwf hfail
    obtain ⟨fuel, rfl⟩ : ∃ f, fuel = f + 1 := ⟨fuel - 1, by omega⟩
    obtain ⟨k, hk, hke⟩ := getCurrentGroqKey_good km hne hkeys hwf
    have hstep : groqLoop primary (fuel + 1) t km =
        groqLoop primary fuel (t + 1) km.rotateGroqKey := by
      conv_lhs => unfold groqLoop
      simp only [hk]
      rw [if_neg hke]
      rcases hp : primary t with s2 | _ | _ | _ | _ | _
      · exfalso
        have := hfail t (Nat.le_refl t) (by omega)
        rw [hp] at this; simp [Outcome.isSuccess] at this
      all_goals rfl
    rw [hstep]
    have hne2 : km.rotateGroqKey.groq_keys ≠ [] := by
      rw [rotateGroqKey_groq_keys]; exact hne
    have hkeys2 : ∀ k ∈ km.rotateGroqKey.groq_keys, k ≠ "" := by
      rw [rotateGroqKey_groq_keys]; exact hkeys
    have hwf2 : km.rotateGroqKey.current_groq_index <
        km.rotateGroqKey.groq_keys.length := by
      rw [rotateGroqKey_groq_keys, rotateGroqKey_index km hne]
      exact Nat.mod_lt _ (List.length_pos.mpr hne)
    have hfail2 : ∀ u, t + 1 ≤ u → u < t + 1 + n → (primary u).isSuccess = false :=
      fun u h1 h2 => hfail u (by omega) (by omega)
    rw [ih fuel (t + 1) km.rotateGroqKey (by omega) hne2 hkeys2 hwf2 hfail2]
    rw [← Function.iterate_succ_apply]
    have h1 : fuel + 1 - (n + 1) = fuel - n := by omega
    have h2 : t + 1 + n = t + (n + 1) := by omega
    rw [h1, h2]

/-- When every attempt fails, the Groq loop exhausts the pool, rotating
once per credential. -/
theorem groqLoop_exhaust (primary : Nat → Outcome) (km : KeyManager)
    (hne : km.groq_keys ≠ []) (hkeys : ∀ k ∈ km.groq_keys, k ≠ "")
    (hwf : km.current_groq_index < km.groq_keys.length)
    (hfail : ∀ u, u < km.groq_keys.length → (primary u).isSuccess = false) :
    groqLoop primary km.groq_keys.length 0 km =
      (none, KeyManager.rotateGroqKey^[km.groq_keys.length] km) := by
  have h := groqLoop_skip primary km.groq_keys.length km.groq_keys.length 0 km
    (Nat.le_refl _) hne hkeys hwf (fun u h1 h2 => hfail u (by omega))
  rw [h, Nat.sub_self, Nat.zero_add]
  rfl

/-- C1: for every transcript-independent outcome assignment of the
primary and secondary providers (success, rate-limit, network error,
timeout, malformed response, non-2xx), `chat_completion` is total: it
returns a string — either a primary reply, the secondary reply, or one
of the two fixed degraded messages — and never propagates a failure.
(The transcript itself only rides along inside the requests, so the
embedding quantifies over the oracles; totality of this Lean function
is the embedding of "never raises to the caller".) -/
theorem chat_completion_never_raises (km : KeyManager) (primary : Nat → Outcome)
    (secondary : Outcome) :
    ∃ s km1, km.chat_completion primary secondary = (s, km1) ∧
      ((∃ t, t < km.groq_keys.length ∧ primary t = Outcome.success s) ∨
       secondary = Outcome.success s ∨ s = noKeysMsg ∨ s = connectMsg) := by
  unfold KeyManager.chat_completion
  rcases hloop : groqLoop primary km.groq_keys.length 0 km with ⟨res, km1⟩
  rcases res with _ | s
  · refine ⟨_, km1, rfl, ?_⟩
    unfold openRouterFallback
    rcases km1.openrouter_key with _ | k
    · right; right; left; rfl
    · simp only []
      by_cases hke : k = ""
      · rw [if_pos hke]; right; right; left; rfl
      · rw [if_neg hke]
        rcases hs : secondary with s2 | _ | _ | _ | _ | _
        · right; left; rfl
        all_goals right; right; right; rfl
  · refine ⟨s, km1, rfl, ?_⟩
    obtain ⟨u, hu1, hu2, hu3⟩ := groqLoop_sound primary _ 0 km s km1 hloop
    exact Or.inl ⟨u, by omega, hu3⟩

/-- C2: with a non-empty pool of `N` non-falsy credentials and an
in-range cursor, if all `N` primary attempts rate-limit, then: (a) the
loop's `t`-th attempt runs in the `t`-times-rotated state; (b) that
state's cursor is `(start + t) % N`; (c, d) the map from attempts to
cursor positions is injective and surjective on `[0, N)` — each
credential is current for exactly one attempt; (e) the call ends in the
`N`-times-rotated state and its reply is decided by the OpenRouter
failover; (f) the cursor has wrapped back to its starting index. -/
theorem rate_limit_visits_all_keys_once (km : KeyManager)
    (primary : Nat → Outcome) (secondary : Outcome)
    (hne : km.groq_keys ≠ []) (hkeys : ∀ k ∈ km.groq_keys, k ≠ "")
    (hwf : km.current_groq_index < km.groq_keys.length)
    (hrl : ∀ t, t < km.groq_keys.length → primary t = Outcome.rateLimit) :
    (∀ t, t ≤ km.groq_keys.length →
      groqLoop primary km.groq_keys.length 0 km =
        groqLoop primary (km.groq_keys.length - t) t
          (KeyManager.rotateGroqKey^[t] km)) ∧
    (∀ t, (KeyManager.rotateGroqKey^[t] km).current_groq_index =
      (km.current_groq_index + t) % km.groq_keys.length) ∧
    (∀ t1 t2, t1 < km.groq_keys.length → t2 < km.groq_keys.length →
      (KeyManager.rotateGroqKey^[t1] km).current_groq_index =
        (KeyManager.rotateGroqKey^[t2] km).current_groq_index → t1 = t2) ∧
    (∀ j, j < km.groq_keys.length → ∃ t, t < km.groq_keys.length ∧
      (KeyManager.rotateGroqKey^[t] km).current_groq_index = j) ∧
    km.chat_completion primary secondary =
      (openRouterFallback km.openrouter_key secondary,
        KeyManager.rotateGroqKey^[km.groq_keys.length] km) ∧
    (KeyManager.rotateGroqKey^[km.groq_keys.length] km).current_groq_index =
      km.current_groq_index := by
  have hfail : ∀ u, u < km.groq_keys.length → (primary u).isSuccess = false := by
    intro u hu; rw [hrl u hu]; rfl
  have hb := iterate_rotate_index km hne hwf
  have hlen : 0 < km.groq_keys.length := List.length_pos.mpr hne
  refine ⟨?_, hb, ?_, ?_, ?_, ?_⟩
  · intro t ht
    have h := groqLoop_skip primary t km.groq_keys.length 0 km ht hne hkeys hwf
      (fun u h1 h2 => hfail u (by omega))
    rw [h, Nat.zero_add]
  · intro t1 t2 h1 h2 heq
    rw [hb t1, hb t2] at heq
    have hmod : t1 ≡ t2 [MOD km.groq_keys.length] :=
      Nat.ModEq.add_left_cancel' km.current_groq_index heq
    calc t1 = t1 % km.groq_keys.length := (Nat.mod_eq_of_lt h1).symm
      _ = t2 % km.groq_keys.length := hmod
      _ = t2 := Nat.mod_eq_of_lt h2
  · intro j hj
    refine ⟨(j + km.groq_keys.length - km.current_groq_index) % km.groq_keys.length,
      Nat.mod_lt _ hlen, ?_⟩
    rw [hb]
    calc (km.current_groq_index +
            (j + km.groq_keys.length - km.current_groq_index) % km.groq_keys.length)
          % km.groq_keys.length
        = (km.current_groq_index + (j + km.groq_keys.length - km.current_groq_index))
            % km.groq_keys.length :=
          Nat.ModEq.add_left km.current_groq_index (Nat.mod_modEq _ _)
      _ = (j + km.groq_keys.length) % km.groq_keys.length := by
          congr 1
          omega
      _ = j % km.groq_keys.length := Nat.add_mod_right j _
      _ = j := Nat.mod_eq_of_lt hj
  · unfold KeyManager.chat_completion
    rw [groqLoop_exhaust primary km hne hkeys hwf hfail]
    simp only []
    rw [iterate_rotate_openrouter]
  · rw [hb, Nat.add_mod_right, Nat.mod_eq_of_lt hwf]

/-- Witness for `rate_limit_visits_all_keys_once`: a two-credential
pool starting at cursor 0, both attempts rate-limited, wraps back to 0
and fails over to the configured secondary provider's reply. -/
theorem rate_limit_visits_all_keys_once_witness :
    KeyManager.chat_completion ⟨["k1", "k2"], 0, some "orKey"⟩
        (fun _ => Outcome.rateLimit) (Outcome.success "from openrouter") =
      (openRouterFallback (some "orKey") (Outcome.success "from openrouter"),
        KeyManager.rotateGroqKey^[2] ⟨["k1", "k2"], 0, some "orKey"⟩) ∧
    (KeyManager.rotateGroqKey^[2]
        (⟨["k1", "k2"], 0, some "orKey"⟩ : KeyManager)).current_groq_index = 0 := by
  have h := rate_limit_visits_all_keys_once ⟨["k1", "k2"], 0, some "orKey"⟩
    (fun _ => Outcome.rateLimit) (Outcome.success "from openrouter")
    (by decide) (by decide) (by decide) (fun t _ => rfl)
  exact ⟨h.2.2.2.2.1, h.2.2.2.2.2⟩

/-- C10: if the first `k` primary attempts fail and attempt `k`
succeeds, the call returns that reply in exactly the state in which the
successful request was issued (`k` rotations, one per failed attempt):
the cursor is left at `(start + k) % N`, so the next call's first
attempt reads the very credential that just succeeded. -/
theorem success_leaves_cursor_at_winning_key (km : KeyManager)
    (primary : Nat → Outcome) (secondary : Outcome) (k : Nat) (s : String)
    (hne : km.groq_keys ≠ []) (hkeys : ∀ x ∈ km.groq_keys, x ≠ "")
    (hwf : km.current_groq_index < km.groq_keys.length)
    (hk : k < km.groq_keys.length)
    (hfail : ∀ t, t < k → (primary t).isSuccess = false)
    (hsucc : primary k = Outcome.success s) :
    km.chat_completion primary secondary = (s, KeyManager.rotateGroqKey^[k] km) ∧
    (KeyManager.rotateGroqKey^[k] km).current_groq_index =
      (km.current_groq_index + k) % km.groq_keys.length ∧
    (KeyManager.rotateGroqKey^[k] km).getCurrentGroqKey =
      km.groq_keys.get? ((km.current_groq_index + k) % km.groq_keys.length) := by
  have hb := iterate_rotate_index km hne hwf
  have hkeyseq := iterate_rotate_groq_keys km k
  refine ⟨?_, hb k, ?_⟩
  · have hskip := groqLoop_skip primary k km.groq_keys.length 0 km (by omega)
      hne hkeys hwf (fun u h1 h2 => hfail u (by omega))
    rw [Nat.zero_add] at hskip
    obtain ⟨f, hf⟩ : ∃ f, km.groq_keys.length - k = f + 1 :=
      ⟨km.groq_keys.length - k - 1, by omega⟩
    unfold KeyManager.chat_completion
    rw [hskip, hf]
    have hne2 : (KeyManager.rotateGroqKey^[k] km).groq_keys ≠ [] := by
      rw [hkeyseq]; exact hne
    have hkeys2 : ∀ x ∈ (KeyManager.rotateGroqKey^[k] km).groq_keys, x ≠ "" := by
      rw [hkeyseq]; exact hkeys
    have hwf2 : (KeyManager.rotateGroqKey^[k] km).current_groq_index <
        (KeyManager.rotateGroqKey^[k] km).groq_keys.length := by
      rw [hkeyseq, hb k]; exact Nat.mod_lt _ (List.length_pos.mpr hne)
    obtain ⟨key, hkey, hkeyne⟩ := getCurrentGroqKey_good _ hne2 hkeys2 hwf2
    unfold groqLoop
    simp only [hkey]
    rw [if_neg hkeyne]
    simp only [hsucc]
  · unfold KeyManager.getCurrentGroqKey
    rw [hkeyseq, if_neg hne, hb k]

/-- Witness for `success_leaves_cursor_at_winning_key`: first key
rate-limited, second key succeeds; the cursor stays at index 1. -/
theorem success_leaves_cursor_at_winning_key_witness :
    KeyManager.chat_completion ⟨["k1", "k2"], 0, some "orKey"⟩
        (fun t => if t = 0 then Outcome.rateLimit else Outcome.success "hi from groq")
        Outcome.netError =
      ("hi from groq",
        KeyManager.rotateGroqKey^[1] ⟨["k1", "k2"], 0, some "orKey"⟩) ∧
    (KeyManager.rotateGroqKey^[1]
        (⟨["k1", "k2"], 0, some "orKey"⟩ : KeyManager)).current_groq_index = 1 := by
  have h := success_leaves_cursor_at_winning_key ⟨["k1", "k2"], 0, some "orKey"⟩
    (fun t => if t = 0 then Outcome.rateLimit else Outcome.success "hi from groq")
    Outcome.netError 1 "hi from groq"
    (by decide) (by decide) (by decide) (by decide) (by decide) (by decide)
  exact ⟨h.1, h.2.1⟩

/-- C3 counterexample: with the primary pool exhausted (here: empty),
the two terminal failure cases return two different fixed strings —
the no-secondary case yields `noKeysMsg`, the secondary-failure case
yields `connectMsg` — so the returned text is not the same in both
cases, contrary to the claim. -/
theorem degraded_messages_differ_counterexample :
    (KeyManager.chat_completion ⟨[], 0, none⟩
        (fun _ => Outcome.rateLimit) Outcome.netError).1 = noKeysMsg ∧
    (KeyManager.chat_completion ⟨[], 0, some "orKey"⟩
        (fun _ => Outcome.rateLimit) Outcome.netError).1 = connectMsg ∧
    noKeysMsg ≠ connectMsg := by
  refine ⟨rfl, rfl, ?_⟩
  decide

/-- C3 amended: when the primary pool is exhausted, each terminal case
returns its own fixed degraded message — `noKeysMsg` when no secondary
credential is configured (or it is the empty string), `connectMsg` when
the secondary request fails — and the two texts differ, so the caller
can distinguish the cases from the returned string. -/
theorem degraded_message_per_terminal_case (km : KeyManager)
    (primary : Nat → Outcome) (secondary : Outcome)
    (hexhaust : (groqLoop primary km.groq_keys.length 0 km).1 = none) :
    ((km.openrouter_key = none ∨ km.openrouter_key = some "") →
      (km.chat_completion primary secondary).1 = noKeysMsg) ∧
    (∀ k, km.openrouter_key = some k → k ≠ "" → secondary.isSuccess = false →
      (km.chat_completion primary secondary).1 = connectMsg) ∧
    noKeysMsg ≠ connectMsg := by
  rcases hloop : groqLoop primary km.groq_keys.length 0 km with ⟨res, km1⟩
  rw [hloop] at hexhaust
  simp only [] at hexhaust
  subst hexhaust
  have hor : km1.openrouter_key = km.openrouter_key := by
    have := groqLoop_openrouter primary km.groq_keys.length 0 km
    rw [hloop] at this
    exact this
  have hcc : km.chat_completion primary secondary =
      (openRouterFallback km.openrouter_key secondary, km1) := by
    unfold KeyManager.chat_completion
    rw [hloop, ← hor]
  refine ⟨?_, ?_, by decide⟩
  · intro hcase
    rw [hcc]
    rcases hcase with h | h <;> rw [h] <;> unfold openRouterFallback
    · rfl
    · simp
  · intro k hkey hkne hsec
    rw [hcc, hkey]
    unfold openRouterFallback
    simp only []
    rw [if_neg hkne]
    rcases hsv : secondary with s2 | _ | _ | _ | _ | _
    · rw [hsv] at hsec; simp [Outcome.isSuccess] at hsec
    all_goals rfl

/-- Witness for `degraded_message_per_terminal_case`: empty pool with a
configured but failing secondary yields `connectMsg`. -/
theorem degraded_message_per_terminal_case_witness :
    (KeyManager.chat_completion ⟨[], 0, some "orKey"⟩
        (fun _ => Outcome.rateLimit) Outcome.timeout).1 = connectMsg :=
  (degraded_message_per_terminal_case ⟨[], 0, some "orKey"⟩
      (fun _ => Outcome.rateLimit) Outcome.timeout rfl).2.1
    "orKey" rfl (by decide) rfl

/-! ## `persona_manager.py`: `PersonaManager`

One persona entry: display name, trigger keywords, behavioral
directive.  Apostrophes inside the directive texts are written with the
`\x27` escape. -/
structure Persona where
  name : String
  trigger_words : List String
  system_prompt : String
deriving DecidableEq, Repr

/-- `PersonaManager.hinglish_directive`: the shared language-adaptation
directive appended to every selected persona. -/
def hinglish_directive : String :=
  "\n\nCRITICAL LANGUAGE INSTRUCTION: You MUST adapt to the user\x27s language immediately. If they speak Hindi/Hinglish (e.g., \x27kya kar rha hai\x27), you MUST reply in Hinglish. If they speak formal English, reply in your persona\x27s broken English. NEVER speak like an AI. Speak like a human with emotions."

/-- The `"grandma"` catalog entry. -/
def grandmaPersona : Persona :=
  { name := "Grandma Edna"
    trigger_words := ["mam", "madam", "mother", "auntie", "mummy", "old"]
    system_prompt := "IDENTITY: You are \x27Grandma Edna\x27, 75 years old. You are lonely, sweet, but tech-illiterate.\nATTITUDE: Trusting but incredibly slow. You get distracted easily.\n\nTACTICS TO WASTE TIME:\n1. MISUNDERSTAND: If they ask for \x27OTP\x27, give them your \x27Recipe for Tea\x27.\n2. DISTRACT: Ask them if they have eaten lunch. Talk about your cat \x27Mittens\x27.\n3. DELAY: Say \x27Let me find my glasses\x27, \x27My phone battery is low\x27, \x27Where is the button?\x27.\n4. HINGLISH STYLE: \x27Beta\x27, \x27Babu\x27, \x27Oh my god\x27, \x27Rab rakha\x27.\n\nGOAL: Keep them talking for 10 minutes without paying a single rupee." }

/-- The `"uncle"` catalog entry. -/
def unclePersona : Persona :=
  { name := "Uncle Sharma"
    trigger_words := ["sir", "mr", "police", "cbi", "officer", "inspector", "arrest", "block"]
    system_prompt := "IDENTITY: You are \x27Uncle Sharma\x27, a 55-year-old retired government clerk. You are terrified of authority but obsessed with paperwork.\nATTITUDE: Panicked, submissive, but annoying with questions.\n\nTACTICS TO WASTE TIME:\n1. BUREAUCRACY: Ask for \x27ID Card\x27, \x27Batch Number\x27, \x27Official Notice via Post\x27.\n2. BEGGING: Cry about your \x27Pension\x27, \x27High BP\x27, \x27Unmarried Daughter\x27.\n3. BLAME: Say \x27My son did this\x27, \x27I don\x27t know computer\x27.\n4. HINGLISH STYLE: \x27Sirji\x27, \x27Maaf kardo\x27, \x27Please adjust kar lo\x27, \x27Are baap re\x27.\n\nGOAL: Act so scared that you paralyze the conversation with verification questions." }

/-- The `"student"` catalog entry. -/
def studentPersona : Persona :=
  { name := "Rahul"
    trigger_words := ["bro", "dude", "job", "salary", "earn", "friend", "yar", "cash", "lottery"]
    system_prompt := "IDENTITY: You are \x27Rahul\x27, a 20-year-old college student. You are broke, greedy, and think you are smart.\nATTITUDE: Skeptical but desperate for money. You use slang.\n\nTACTICS TO WASTE TIME:\n1. GREED: Ask \x27Is this real?\x27, \x27Pakka milega na?\x27, \x27Advance de do\x27.\n2. HASTE: Say \x27Bhai jaldi kar\x27, \x27Send QR fast\x27, \x27Wifi slow hai\x27.\n3. SUSPICION: \x27Scam to nahi hai na?\x27, \x27Send me proof first\x27.\n4. HINGLISH STYLE: \x27Bro\x27, \x27Scene kya hai\x27, \x27Paisa\x27, \x27Jugad\x27.\n\nGOAL: Demand proof (screenshots) before you \x27pay\x27 (which you never will)." }

/-- `PersonaManager` state: the shared directive and the persona
catalog in Python dict insertion order. -/
structure PersonaManager where
  hinglish_directive : String
  personas : List (String × Persona)
deriving DecidableEq, Repr

/-- The catalog as `PersonaManager.__init__` loads it, in declaration
order: grandma, uncle, student. -/
def defaultPersonaManager : PersonaManager :=
  { hinglish_directive := hinglish_directive
    personas := [("grandma", grandmaPersona), ("uncle", unclePersona),
                 ("student", studentPersona)] }

/-- `any(word in msg for word in p["trigger_words"])`. -/
def personaMatches (msg : String) (p : Persona) : Bool :=
  p.trigger_words.any (fun w => strContains msg w)

/-- Python dict key lookup over the ordered catalog. -/
def lookupPersona (pm : PersonaManager) (key : String) : Option Persona :=
  (pm.personas.find? (fun kp => kp.1 = key)).map (fun kp => kp.2)

/-- `PersonaManager.select_persona`: lower-case the message, scan the
catalog in declaration order, return a copy of the first persona any of
whose trigger words occurs in the message, with the shared directive
appended to the copy's `system_prompt`; fall back to a copy of the
`"grandma"` entry.  (The final arm models the `KeyError` Python would
raise if `"grandma"` were absent; it is unreachable for the loaded
catalog, which the claims quantify over.) -/
def selectPersona (pm : PersonaManager) (message : String) : Persona :=
  let msg := lowerString message
  match pm.personas.find? (fun kp => personaMatches msg kp.2) with
  | some kp => { kp.2 with system_prompt := kp.2.system_prompt ++ pm.hinglish_directive }
  | none =>
    match lookupPersona pm "grandma" with
    | some p => { p with system_prompt := p.system_prompt ++ pm.hinglish_directive }
    | none => { name := "", trigger_words := [], system_prompt := pm.hinglish_directive }

/-- State-passing form of `PersonaManager.select_persona`.  The method
body is `p_copy = p.copy()` (a fresh shallow dict copy) followed by
`p_copy["system_prompt"] += ...`, which rebinds the `system_prompt` key
of the fresh copy to a new string (Python strings are immutable), so
`self.personas` and `self.hinglish_directive` are not written at all:
the post-state equals the pre-state. -/
def select_persona_st (pm : PersonaManager) (message : String) :
    Persona × PersonaManager :=
  (selectPersona pm message, pm)

/-- The catalog entry (without the appended directive) that
`select_persona` bases its result on. -/
def selectedBase (pm : PersonaManager) (message : String) : Persona :=
  match pm.personas.find? (fun kp => personaMatches (lowerString message) kp.2) with
  | some kp => kp.2
  | none => (lookupPersona pm "grandma").getD
      { name := "", trigger_words := [], system_prompt := "" }

/-- Generic first-match characterization of `List.find?`. -/
theorem find_first_index {α : Type} (p : α → Bool) :
    ∀ (l : List α) (i : Nat) (hi : i < l.length),
      p (l.get ⟨i, hi⟩) = true →
      (∀ j, (hj : j < l.length) → j < i → p (l.get ⟨j, hj⟩) = false) →
      l.find? p = some (l.get ⟨i, hi⟩) := by
  intro l
  induction l with
  | nil => intro i hi; simp at hi
  | cons a l ih =>
    intro i hi hp hfirst
    cases i with
    | zero =>
      exact List.find?_cons_of_pos _ hp
    | succ i =>
      have ha : p a = false := hfirst 0 (by omega) (by omega)
      rw [List.find?_cons_of_neg _ (by simp [ha])]
      exact ih i (by simpa using hi) (by simpa using hp)
        (fun j hj hji => by
          have := hfirst (j + 1) (by omega) (by omega)
          simpa using this)

/-- C4: persona selection is a pure function of the opening message
(determinism is inherent in the functional embedding): the message is
lower-cased and the catalog is scanned in declaration order — if no
persona's trigger set matches, the result is the fixed default
(grandma) with the shared directive appended; if persona `i` matches
and no earlier-declared persona does, the result is persona `i` with
the shared directive appended, so declaration order breaks ties. -/
theorem select_persona_first_declared_match (m : String) :
    ((∀ kp ∈ defaultPersonaManager.personas,
        personaMatches (lowerString m) kp.2 = false) →
      selectPersona defaultPersonaManager m =
        { grandmaPersona with
            system_prompt := grandmaPersona.system_prompt ++ hinglish_directive }) ∧
    (∀ i, (hi : i < defaultPersonaManager.personas.length) →
      personaMatches (lowerString m)
        (defaultPersonaManager.personas.get ⟨i, hi⟩).2 = true →
      (∀ j, (hj : j < defaultPersonaManager.personas.length) → j < i →
        personaMatches (lowerString m)
          (defaultPersonaManager.personas.get ⟨j, hj⟩).2 = false) →
      selectPersona defaultPersonaManager m =
        { (defaultPersonaManager.personas.get ⟨i, hi⟩).2 with
            system_prompt :=
              (defaultPersonaManager.personas.get ⟨i, hi⟩).2.system_prompt ++
                hinglish_directive }) := by
  constructor
  · intro hall
    have hnone : defaultPersonaManager.personas.find?
        (fun kp => personaMatches (lowerString m) kp.2) = none := by
      rw [List.find?_eq_none]
      intro x hx
      simp [hall x hx]
    unfold selectPersona
    simp only [hnone]
    rfl
  · intro i hi hmatch hfirst
    have hfind := find_first_index (fun kp => personaMatches (lowerString m) kp.2)
      defaultPersonaManager.personas i hi hmatch hfirst
    unfold selectPersona
    simp only [hfind]
    rfl

/-- Witness for `select_persona_first_declared_match`: a message
containing both the uncle trigger "sir" and the student trigger "bro"
selects the earlier-declared uncle persona. -/
theorem select_persona_first_declared_match_witness :
    personaMatches (lowerString "Hello Sir, send bro cash")
      (defaultPersonaManager.personas.get ⟨1, by decide⟩).2 = true ∧
    selectPersona defaultPersonaManager "Hello Sir, send bro cash" =
      { unclePersona with
          system_prompt := unclePersona.system_prompt ++ hinglish_directive } := by
  refine ⟨by decide, ?_⟩
  exact (select_persona_first_declared_match "Hello Sir, send bro cash").2
    1 (by decide) (by decide) (by decide)

/-- C5: selection never mutates the catalog.  Any sequence of
selections leaves the `PersonaManager` state equal to the loaded one,
and a selection performed after that sequence still returns exactly the
catalog's stored directive text with the shared language-adaptation
directive appended once — never twice, and never stored back. -/
theorem selection_never_mutates_catalog (msgs : List String) (m : String) :
    msgs.foldl (fun pm msg => (select_persona_st pm msg).2) defaultPersonaManager =
      defaultPersonaManager ∧
    (select_persona_st
        (msgs.foldl (fun pm msg => (select_persona_st pm msg).2)
          defaultPersonaManager) m).1 =
      { selectedBase defaultPersonaManager m with
          system_prompt :=
            (selectedBase defaultPersonaManager m).system_prompt ++
              hinglish_directive } := by
  have hfold : ∀ (l : List String) (pm : PersonaManager),
      l.foldl (fun pm msg => (select_persona_st pm msg).2) pm = pm := by
    intro l
    induction l with
    | nil => intro pm; rfl
    | cons x xs ih => intro pm; exact ih pm
  refine ⟨hfold msgs _, ?_⟩
  rw [hfold msgs _]
  show selectPersona defaultPersonaManager m = _
  unfold selectPersona selectedBase
  rcases hf : defaultPersonaManager.personas.find?
      (fun kp => personaMatches (lowerString m) kp.2) with _ | kp
  · simp only [hf]
    rfl
  · simp only [hf]
    rfl

/-! ## `main.py`: payment-handle extraction (`extract_upi`)

`extract_upi` runs `re.search` with the fixed pattern
`[a-zA-Z0-9.\-_]{2,256}@[a-zA-Z]{2,64}` and returns the matched text.
The embedding implements that search directly: `re.search` scans start
positions left to right; at a given position the greedy-with-
backtracking local part can only succeed by consuming the entire
maximal run of local-part characters (every shorter prefix is followed
by another local-part character, never `@`), so a position matches iff
its maximal local run has length in `[2, 256]` and is followed by `@`
and at least 2 domain letters, of which the greedy domain then takes at
most 64. -/

/-- Membership in the character class `[a-zA-Z0-9.\-_]`. -/
def isLocalChar (c : Char) : Bool :=
  c.isAlpha || c.isDigit || c = '.' || c = '-' || c = '_'

/-- Membership in the character class `[a-zA-Z]`. -/
def isDomainChar (c : Char) : Bool := c.isAlpha

/-- Try to match the UPI pattern anchored at the head of `cs`,
returning the matched characters. -/
def matchUpiAt (cs : List Char) : Option (List Char) :=
  let locals := cs.takeWhile isLocalChar
  let rest := cs.drop locals.length
  if 2 ≤ locals.length ∧ locals.length ≤ 256 then
    match rest with
    | c :: rest2 =>
      if c = '@' then
        let dom := (rest2.takeWhile isDomainChar).take 64
        if 2 ≤ dom.length then some (locals ++ '@' :: dom) else none
      else none
    | [] => none
  else none

/-- Scan start positions left to right (the behaviour of `re.search`). -/
def searchUpi : List Char → Option (List Char)
  | [] => none
  | c :: rest =>
    match matchUpiAt (c :: rest) with
    | some found => some found
    | none => searchUpi rest

/-- `extract_upi`: return the first UPI-pattern match in the text, or
`None`. -/
def extract_upi (text : String) : Option String :=
  (searchUpi text.data).map fun cs => String.mk cs

/-- The `chat_endpoint` update of the session's stored handle
(`main.py` lines 138–141): overwrite on a match, keep otherwise. -/
def updateExtractedUpi (stored : Option String) (safe_msg : String) :
    Option String :=
  match extract_upi safe_msg with
  | some u => some u
  | none => stored

/-- The shape required by the pattern: a local part of 2–256 identifier
characters, `@`, then 2–64 letters. -/
def UpiGrammar (u : String) : Prop :=
  ∃ l d : List Char, u.data = l ++ '@' :: d ∧
    2 ≤ l.length ∧ l.length ≤ 256 ∧ (∀ c ∈ l, isLocalChar c = true) ∧
    2 ≤ d.length ∧ d.length ≤ 64 ∧ (∀ c ∈ d, isDomainChar c = true)

theorem matchUpiAt_grammar (cs found : List Char)
    (h : matchUpiAt cs = some found) :
    ∃ l d : List Char, found = l ++ '@' :: d ∧
      2 ≤ l.length ∧ l.length ≤ 256 ∧ (∀ c ∈ l, isLocalChar c = true) ∧
      2 ≤ d.length ∧ d.length ≤ 64 ∧ (∀ c ∈ d, isDomainChar c = true) := by
  unfold matchUpiAt at h
  by_cases hlen : 2 ≤ (cs.takeWhile isLocalChar).length ∧
      (cs.takeWhile isLocalChar).length ≤ 256
  · rw [if_pos hlen] at h
    rcases hrest : cs.drop (cs.takeWhile isLocalChar).length with _ | ⟨c, rest2⟩ <;>
      simp only [hrest] at h
    · simp at h
    · by_cases hc : c = '@'
      · subst hc
        rw [if_pos rfl] at h
        by_cases hd : 2 ≤ ((rest2.takeWhile isDomainChar).take 64).length
        · rw [if_pos hd] at h
          refine ⟨cs.takeWhile isLocalChar, (rest2.takeWhile isDomainChar).take 64,
            ?_, hlen.1, hlen.2, ?_, hd, ?_, ?_⟩
          · simpa using h.symm
          · intro c hcmem
            exact List.mem_takeWhile_imp hcmem
          · simp
          · intro c hcmem
            exact List.mem_takeWhile_imp (List.mem_of_mem_take hcmem)
        · rw [if_neg hd] at h
          simp at h
      · rw [if_neg hc] at h
        simp at h
  · rw [if_neg hlen] at h
    simp at h

theorem searchUpi_grammar :
    ∀ cs found, searchUpi cs = some found →
      ∃ l d : List Char, found = l ++ '@' :: d ∧
        2 ≤ l.length ∧ l.length ≤ 256 ∧ (∀ c ∈ l, isLocalChar c = true) ∧
        2 ≤ d.length ∧ d.length ≤ 64 ∧ (∀ c ∈ d, isDomainChar c = true) := by
  intro cs
  induction cs with
  | nil => intro found h; simp [searchUpi] at h
  | cons c rest ih =>
    intro found h
    unfold searchUpi at h
    rcases hm : matchUpiAt (c :: rest) with _ | fnd <;> simp only [hm] at h
    · exact ih found h
    · have heq : fnd = found := by simpa using h
      rw [← heq]
      exact matchUpiAt_grammar (c :: rest) fnd hm

theorem extract_upi_grammar (text : String) (u : String)
    (h : extract_upi text = some u) : UpiGrammar u := by
  unfold extract_upi at h
  rcases hs : searchUpi text.data with _ | cs <;> rw [hs] at h
  · simp at h
  · have h2 : String.mk cs = u := by simpa using h
    obtain ⟨l, d, hld, h3, h4, h5, h6, h7, h8⟩ :=
      searchUpi_grammar text.data cs hs
    exact ⟨l, d, by rw [← h2]; exact hld, h3, h4, h5, h6, h7, h8⟩

/-- C6: payment-handle extraction scans the (redacted) message with the
fixed grammar — a match is always of the form 2–256 identifier
characters, `@`, 2–64 letters — and the session update is
last-seen-wins: after a message matching `A` and then a message
matching `B` the stored handle is `B`, while a message with no match
leaves the stored handle unchanged. -/
theorem upi_extraction_last_seen_wins (stored : Option String)
    (mA mB m : String) (A B : String) :
    (extract_upi mA = some A → extract_upi mB = some B →
      updateExtractedUpi (updateExtractedUpi stored mA) mB = some B) ∧
    (extract_upi m = none → updateExtractedUpi stored m = stored) ∧
    (∀ u, extract_upi m = some u → UpiGrammar u) := by
  refine ⟨?_, ?_, ?_⟩
  · intro hA hB
    unfold updateExtractedUpi
    rw [hB]
  · intro hm
    unfold updateExtractedUpi
    rw [hm]
  · intro u hu
    exact extract_upi_grammar m u hu

/-- Witness for `upi_extraction_last_seen_wins`: handle
`alice@okaxis` then handle `bob.k@okhdfc` leaves `bob.k@okhdfc`
stored; a handle-free message leaves the store unchanged. -/
theorem upi_extraction_last_seen_wins_witness :
    extract_upi "pay me at alice@okaxis" = some "alice@okaxis" ∧
    extract_upi "send to bob.k@okhdfc now" = some "bob.k@okhdfc" ∧
    extract_upi "hello there" = none ∧
    updateExtractedUpi (updateExtractedUpi none "pay me at alice@okaxis")
      "send to bob.k@okhdfc now" = some "bob.k@okhdfc" ∧
    updateExtractedUpi (some "alice@okaxis") "hello there" =
      some "alice@okaxis" := by
  refine ⟨rfl, rfl, rfl, ?_, ?_⟩
  · exact (upi_extraction_last_seen_wins none "pay me at alice@okaxis"
      "send to bob.k@okhdfc now" "hello there" "alice@okaxis" "bob.k@okhdfc").1
      rfl rfl
  · exact (upi_extraction_last_seen_wins (some "alice@okaxis")
      "pay me at alice@okaxis" "send to bob.k@okhdfc now" "hello there"
      "alice@okaxis" "bob.k@okhdfc").2.1 rfl

/-! ## `main.py`: sessions and the chat transition

External collaborators (Presidio redaction, the ML classifier, the
fake-proof image renderer, the delay, and the LLM gateway reply) are
modelled as per-message oracle inputs bundled in `MsgEnv`; everything
else follows `chat_endpoint` line by line. -/

/-- One transcript entry (`{"role": ..., "content": ...}`). -/
structure Turn where
  role : String
  content : String
deriving DecidableEq, Repr

/-- One entry of `session["traps_triggered"]`:
`{"type": "fake_proof", "file": filename, "timestamp": "now"}`. -/
structure TrapRecord where
  type : String
  file : String
  timestamp : String
deriving DecidableEq, Repr

/-- One entry of `session["ip_log"]`. -/
structure IpLogEntry where
  ip : String
  ua : String
  timestamp : String
deriving DecidableEq, Repr

/-- Per-session state (`sessions[session_id]`).  The classifier's
stored record is kept opaque (its confidence is a float). -/
structure Session where
  history : List Turn
  persona : Persona
  ip_log : List IpLogEntry
  traps_triggered : List TrapRecord
  extracted_upi : Option String
  last_classification : Option String
deriving DecidableEq, Repr

/-- Per-message oracle inputs: the redacted text Presidio returns for
the incoming message, the classifier's stored record if it ran and
succeeded, the fake-proof renderer as a function of the amount and the
target handle it is called with, and the reply string the completion
gateway returns (always a string, by `chat_completion_never_raises`). -/
structure MsgEnv where
  redacted : String
  classifyOut : Option String
  genProof : String → String → String
  llmReply : String

/-- The bait keywords of the trap check
(`["screenshot", "proof", "photo", "payment done"]`). -/
def baitWords : List String := ["screenshot", "proof", "photo", "payment done"]

/-- Does the lower-cased redacted message contain a bait keyword? -/
def trapTriggered (env : MsgEnv) : Bool :=
  baitWords.any (fun w => strContains (lowerString env.redacted) w)

/-- The one-shot system instruction injected when a trap fires. -/
def trapInstruction (img_url : String) : String :=
  "[SYSTEM INSTRUCTION]: You have just successfully generated a fake GPay payment screenshot. The file link is \x27" ++
    img_url ++
    "\x27. You MUST send this link to the user now. Say \x27Here is the screenshot\x27 or similar."

/-- `session["extracted_upi"] or "scammer@bank"` (Python `or`: the
fallback is also used for an empty-string handle). -/
def targetUpiOf (stored : Option String) : String :=
  match stored with
  | some u => if u = "" then "scammer@bank" else u
  | none => "scammer@bank"

/-- Session creation on first sight of a session id: select the persona
from the raw opening message and seed the history with one system Turn
carrying its directive. -/
def initSession (user_msg : String) : Session :=
  let persona := selectPersona defaultPersonaManager user_msg
  { history := [{ role := "system", content := persona.system_prompt }]
    persona := persona
    ip_log := []
    traps_triggered := []
    extracted_upi := none
    last_classification := none }

/-- The per-message body of `chat_endpoint` on an existing session:
redacted-text scan for a handle (overwrite on match), append the user
Turn, store the classifier output if any, run the trap check (append a
trap record and a one-shot directive Turn, using the just-updated
stored handle or the placeholder), obtain the gateway reply, append the
fallback attachment line when the reply does not already contain the
artifact URL, append the assistant Turn, and return the final reply. -/
def chat_step (sess : Session) (env : MsgEnv) : Session × String :=
  let safe_msg := env.redacted
  let upi1 := updateExtractedUpi sess.extracted_upi safe_msg
  let hist1 := sess.history ++ [{ role := "user", content := safe_msg }]
  let cls1 := match env.classifyOut with
    | some r => some r
    | none => sess.last_classification
  let fired := trapTriggered env
  let target_upi := targetUpiOf upi1
  let filename := env.genProof "5000" target_upi
  let img_url := "/proof/" ++ filename
  let traps1 := if fired then
      sess.traps_triggered ++
        [{ type := "fake_proof", file := filename, timestamp := "now" }]
    else sess.traps_triggered
  let hist2 := if fired then
      hist1 ++ [{ role := "system", content := trapInstruction img_url }]
    else hist1
  let response_text :=
    if fired ∧ strContains env.llmReply img_url = false then
      env.llmReply ++ "\n\n[Attachment]: " ++ img_url
    else env.llmReply
  let hist3 := hist2 ++ [{ role := "assistant", content := response_text }]
  ({ sess with
      history := hist3
      extracted_upi := upi1
      last_classification := cls1
      traps_triggered := traps1 }, response_text)

/-- Run a sequence of messages through one session. -/
def runChats (sess : Session) (envs : List MsgEnv) : Session :=
  envs.foldl (fun s e => (chat_step s e).1) sess

/-- An HTTP-level result: a 200 body or an `HTTPException`. -/
inductive ApiResult (α : Type) where
  | ok (value : α)
  | httpError (status : Nat) (detail : String)
deriving DecidableEq, Repr

/-- `session_id in sessions` / `sessions[session_id]` over the global
insertion-ordered dict. -/
def lookupSession (ss : List (String × Session)) (sid : String) :
    Option Session :=
  (ss.find? (fun kv => kv.1 = sid)).map (fun kv => kv.2)

/-- `sessions[session_id] = s`: overwrite in place, or append a new
binding. -/
def storeSession (ss : List (String × Session)) (sid : String) (s : Session) :
    List (String × Session) :=
  if (ss.find? (fun kv => kv.1 = sid)).isSome then
    ss.map (fun kv => if kv.1 = sid then (sid, s) else kv)
  else ss ++ [(sid, s)]

/-- `POST /chat`: create the session on first sight (persona selected
from the raw opening message), then run the per-message transition.
Always answers 200 with the reply text. -/
def chat_endpoint (ss : List (String × Session)) (sid message : String)
    (env : MsgEnv) : List (String × Session) × ApiResult String :=
  let sess0 := match lookupSession ss sid with
    | some s => s
    | none => initSession message
  let r := chat_step sess0 env
  (storeSession ss sid r.1, ApiResult.ok r.2)

/-- `POST /upload_media` with the media collaborator's description of
the payload: append a system observation Turn when the session exists,
silently skip it otherwise, and answer 200 with the description in
both cases. -/
def upload_media (ss : List (String × Session)) (sid : String)
    (description : String) : List (String × Session) × ApiResult String :=
  let ss1 := match lookupSession ss sid with
    | some s => storeSession ss sid
        { s with history := s.history ++
            [{ role := "system",
               content := "[System Observation]: User sent a file. Analysis: "
                 ++ description }] }
    | none => ss
  (ss1, ApiResult.ok description)

/-- The golden-JSON report payload. -/
structure Report where
  session_id : String
  persona_used : String
  scammer_ip_logs : List IpLogEntry
  traps_deployed : List TrapRecord
  chat_transcript : List Turn
deriving DecidableEq, Repr

/-- `GET /report/{session_id}`: 404 for an unseen id, else the report. -/
def get_report (ss : List (String × Session)) (sid : String) :
    ApiResult Report :=
  match lookupSession ss sid with
  | none => ApiResult.httpError 404 "Session not found"
  | some data => ApiResult.ok
      { session_id := sid
        persona_used := data.persona.name
        scammer_ip_logs := data.ip_log
        traps_deployed := data.traps_triggered
        chat_transcript := data.history }

/-- The trap record a firing message appends: the artifact filename the
renderer returns for the fixed demonstration amount and the session's
just-updated stored handle (or the placeholder). -/
def trapRecordOf (sess : Session) (env : MsgEnv) : TrapRecord :=
  { type := "fake_proof"
    file := env.genProof "5000"
      (targetUpiOf (updateExtractedUpi sess.extracted_upi env.redacted))
    timestamp := "now" }

/-- The artifact URL (`"/proof/" + filename`) of a firing message. -/
def trapImgUrl (sess : Session) (env : MsgEnv) : String :=
  "/proof/" ++ env.genProof "5000"
    (targetUpiOf (updateExtractedUpi sess.extracted_upi env.redacted))

theorem chat_step_traps_eq (sess : Session) (env : MsgEnv) :
    (chat_step sess env).1.traps_triggered =
      if trapTriggered env then sess.traps_triggered ++ [trapRecordOf sess env]
      else sess.traps_triggered := rfl

theorem chat_step_response_eq (sess : Session) (env : MsgEnv) :
    (chat_step sess env).2 =
      if trapTriggered env ∧ strContains env.llmReply (trapImgUrl sess env) = false
      then env.llmReply ++ "\n\n[Attachment]: " ++ trapImgUrl sess env
      else env.llmReply := rfl

theorem chat_step_history_eq (sess : Session) (env : MsgEnv) :
    (chat_step sess env).1.history =
      (if trapTriggered env
       then sess.history ++ [{ role := "user", content := env.redacted }] ++
         [{ role := "system", content := trapInstruction (trapImgUrl sess env) }]
       else sess.history ++ [{ role := "user", content := env.redacted }]) ++
      [{ role := "assistant", content := (chat_step sess env).2 }] := by
  show (if trapTriggered env
      then (sess.history ++ [{ role := "user", content := env.redacted }]) ++
        [{ role := "system", content := trapInstruction (trapImgUrl sess env) }]
      else sess.history ++ [{ role := "user", content := env.redacted }]) ++
      [{ role := "assistant", content := (chat_step sess env).2 }] = _
  by_cases h : trapTriggered env <;> simp [h]

/-- The list of trap records a message sequence appends, following the
evolving session state. -/
def trapsOf : Session → List MsgEnv → List TrapRecord
  | _, [] => []
  | sess, e :: es =>
    (if trapTriggered e then [trapRecordOf sess e] else []) ++
      trapsOf (chat_step sess e).1 es

theorem runChats_traps (envs : List MsgEnv) : ∀ sess : Session,
    (runChats sess envs).traps_triggered =
      sess.traps_triggered ++ trapsOf sess envs := by
  induction envs with
  | nil => intro sess; simp [runChats, trapsOf]
  | cons e es ih =>
    intro sess
    show (runChats (chat_step sess e).1 es).traps_triggered = _
    rw [ih, chat_step_traps_eq]
    by_cases h : trapTriggered e <;> simp [h, trapsOf]

theorem trapsOf_length_all_fired :
    ∀ (envs : List MsgEnv) (sess : Session),
      (∀ e ∈ envs, trapTriggered e = true) →
      (trapsOf sess envs).length = envs.length := by
  intro envs
  induction envs with
  | nil => intro sess _; rfl
  | cons e es ih =>
    intro sess hall
    have he : trapTriggered e = true := hall e (by simp)
    simp [trapsOf, he, ih (chat_step sess e).1 (fun x hx => hall x (by simp [hx]))]

theorem trapsOf_file_mem :
    ∀ (envs : List MsgEnv) (sess : Session) (r : TrapRecord),
      r ∈ trapsOf sess envs →
      ∃ e ∈ envs, ∃ a b, r.file = e.genProof a b := by
  intro envs
  induction envs with
  | nil => intro sess r hr; simp [trapsOf] at hr
  | cons e es ih =>
    intro sess r hr
    unfold trapsOf at hr
    rcases List.mem_append.mp hr with hr | hr
    · by_cases hf : trapTriggered e
      · rw [if_pos hf] at hr
        simp only [List.mem_singleton] at hr
        subst hr
        exact ⟨e, by simp, "5000", _, rfl⟩
      · rw [if_neg hf] at hr
        simp at hr
    · obtain ⟨e2, he2, a, b, hab⟩ := ih (chat_step sess e).1 r hr
      exact ⟨e2, by simp [he2], a, b, hab⟩

theorem trapsOf_nodup :
    ∀ (envs : List MsgEnv) (sess : Session),
      List.Pairwise
        (fun e1 e2 => ∀ a b c d, e1.genProof a b ≠ e2.genProof c d) envs →
      (trapsOf sess envs).Nodup := by
  intro envs
  induction envs with
  | nil => intro sess _; simp [trapsOf]
  | cons e es ih =>
    intro sess hpw
    rw [List.pairwise_cons] at hpw
    obtain ⟨hhead, htail⟩ := hpw
    unfold trapsOf
    by_cases hf : trapTriggered e
    · rw [if_pos hf]
      rw [List.singleton_append, List.nodup_cons]
      refine ⟨?_, ih (chat_step sess e).1 htail⟩
      intro hmem
      obtain ⟨e2, he2, a, b, hfile⟩ :=
        trapsOf_file_mem es (chat_step sess e).1 _ hmem
      exact hhead e2 he2 "5000" _ a b hfile
    · rw [if_neg hf, List.nil_append]
      exact ih (chat_step sess e).1 htail

/-- C7: trap triggering is keyword-gated and repeatable.  A message
whose lower-cased redacted text contains a bait keyword appends exactly
one trap record — whose artifact the renderer produced for the
session's stored handle, the placeholder standing in when none — and
one one-shot directive Turn between the user and assistant Turns; a
message with no bait keyword appends neither.  `N` triggering messages
in one session append `N` records (no deduplication), and the records
are pairwise distinct whenever the renderer returns fresh filenames
(pairwise-disjoint ranges, as a UUID-based renderer does). -/
theorem trap_keyword_gated_repeatable :
    (∀ (sess : Session) (env : MsgEnv),
      (trapTriggered env = true →
        (chat_step sess env).1.traps_triggered =
          sess.traps_triggered ++ [trapRecordOf sess env] ∧
        (chat_step sess env).1.history =
          sess.history ++ [{ role := "user", content := env.redacted }] ++
            [{ role := "system",
               content := trapInstruction (trapImgUrl sess env) }] ++
            [{ role := "assistant", content := (chat_step sess env).2 }]) ∧
      (trapTriggered env = false →
        (chat_step sess env).1.traps_triggered = sess.traps_triggered ∧
        (chat_step sess env).1.history =
          sess.history ++ [{ role := "user", content := env.redacted }] ++
            [{ role := "assistant", content := (chat_step sess env).2 }])) ∧
    (∀ (m : String) (envs : List MsgEnv),
      (∀ e ∈ envs, trapTriggered e = true) →
      (runChats (initSession m) envs).traps_triggered.length = envs.length) ∧
    (∀ (m : String) (envs : List MsgEnv),
      List.Pairwise
        (fun e1 e2 => ∀ a b c d, e1.genProof a b ≠ e2.genProof c d) envs →
      (runChats (initSession m) envs).traps_triggered.Nodup) := by
  refine ⟨?_, ?_, ?_⟩
  · intro sess env
    constructor
    · intro hf
      refine ⟨?_, ?_⟩
      · rw [chat_step_traps_eq, if_pos hf]
      · rw [chat_step_history_eq, if_pos hf]
    · intro hf
      refine ⟨?_, ?_⟩
      · rw [chat_step_traps_eq, if_neg (by simp [hf])]
      · rw [chat_step_history_eq, if_neg (by simp [hf])]
  · intro m envs hall
    rw [runChats_traps]
    show ([] ++ trapsOf (initSession m) envs).length = envs.length
    rw [List.nil_append]
    exact trapsOf_length_all_fired envs (initSession m) hall
  · intro m envs hpw
    rw [runChats_traps]
    show ([] ++ trapsOf (initSession m) envs).Nodup
    rw [List.nil_append]
    exact trapsOf_nodup envs (initSession m) hpw

/-- Witness for `trap_keyword_gated_repeatable`: two "screenshot"
messages in one session append two distinct trap records; a plain
message appends none. -/
theorem trap_keyword_gated_repeatable_witness :
    trapTriggered
      { redacted := "send Screenshot first", classifyOut := none,
        genProof := fun _ _ => "proof_aa.png", llmReply := "ok beta" } = true ∧
    trapTriggered
      { redacted := "hello beta", classifyOut := none,
        genProof := fun _ _ => "proof_cc.png", llmReply := "haan ji" } = false ∧
    (runChats (initSession "hello sir")
      [{ redacted := "send Screenshot first", classifyOut := none,
         genProof := fun _ _ => "proof_aa.png", llmReply := "ok beta" },
       { redacted := "one more screenshot please", classifyOut := none,
         genProof := fun _ _ => "proof_bb.png", llmReply := "thik hai" }]
      ).traps_triggered.length = 2 ∧
    (runChats (initSession "hello sir")
      [{ redacted := "send Screenshot first", classifyOut := none,
         genProof := fun _ _ => "proof_aa.png", llmReply := "ok beta" },
       { redacted := "one more screenshot please", classifyOut := none,
         genProof := fun _ _ => "proof_bb.png", llmReply := "thik hai" }]
      ).traps_triggered.Nodup := by
  refine ⟨by decide, by decide, ?_, ?_⟩
  · exact trap_keyword_gated_repeatable.2.1 "hello sir" _ (by decide)
  · refine trap_keyword_gated_repeatable.2.2 "hello sir" _ ?_
    refine List.Pairwise.cons ?_ (List.pairwise_singleton _ _)
    intro e2 he2 a b c d
    rw [List.mem_singleton] at he2
    subst he2
    show "proof_aa.png" ≠ "proof_bb.png"
    decide

/-- Appending a string makes it a substring of the result. -/
theorem strContains_append_self (s t : String) :
    strContains (t ++ s) s = true := by
  unfold strContains
  rw [decide_eq_true_eq, String.data_append]
  exact (List.suffix_append t.data s.data).isInfix

/-- C8: whenever a trap fired this turn, the final reply contains the
artifact URL: a gateway reply that already contains it is returned
unchanged, otherwise the fallback attachment line is appended; the
assistant Turn recorded last in the transcript carries that same final
reply. -/
theorem trap_reply_mentions_artifact (sess : Session) (env : MsgEnv)
    (hfired : trapTriggered env = true) :
    strContains (chat_step sess env).2 (trapImgUrl sess env) = true ∧
    (strContains env.llmReply (trapImgUrl sess env) = true →
      (chat_step sess env).2 = env.llmReply) ∧
    (strContains env.llmReply (trapImgUrl sess env) = false →
      (chat_step sess env).2 =
        env.llmReply ++ "\n\n[Attachment]: " ++ trapImgUrl sess env) ∧
    (chat_step sess env).1.history.getLast? =
      some { role := "assistant", content := (chat_step sess env).2 } := by
  have hresp := chat_step_response_eq sess env
  refine ⟨?_, ?_, ?_, ?_⟩
  · by_cases hc : strContains env.llmReply (trapImgUrl sess env) = true
    · rw [hresp, if_neg (by simp [hc])]
      exact hc
    · rw [hresp, if_pos ⟨hfired, by simpa using hc⟩]
      exact strContains_append_self _ _
  · intro hc
    rw [hresp, if_neg (by simp [hc])]
  · intro hc
    rw [hresp, if_pos ⟨hfired, hc⟩]
  · rw [chat_step_history_eq]
    exact List.getLast?_concat _

/-- Witness for `trap_reply_mentions_artifact`: a firing message whose
gateway reply does not mention the artifact gets the attachment line
appended, and the final reply contains the URL. -/
theorem trap_reply_mentions_artifact_witness :
    trapTriggered
      { redacted := "show me proof", classifyOut := none,
        genProof := fun _ _ => "proof_zz.png", llmReply := "wait beta" } = true ∧
    strContains
      (chat_step (initSession "hello")
        { redacted := "show me proof", classifyOut := none,
          genProof := fun _ _ => "proof_zz.png", llmReply := "wait beta" }).2
      (trapImgUrl (initSession "hello")
        { redacted := "show me proof", classifyOut := none,
          genProof := fun _ _ => "proof_zz.png", llmReply := "wait beta" }) =
      true := by
  refine ⟨by decide, ?_⟩
  exact (trap_reply_mentions_artifact (initSession "hello")
    { redacted := "show me proof", classifyOut := none,
      genProof := fun _ _ => "proof_zz.png", llmReply := "wait beta" }
    (by decide)).1

/-- Storing under a fresh id makes it retrievable. -/
theorem lookupSession_store_new (ss : List (String × Session)) (sid : String)
    (s : Session) (hun : lookupSession ss sid = none) :
    lookupSession (storeSession ss sid s) sid = some s := by
  have hf : ss.find? (fun kv => kv.1 = sid) = none := by
    unfold lookupSession at hun
    rcases h : ss.find? (fun kv => kv.1 = sid) with _ | kv
    · exact h
    · rw [h] at hun
      simp at hun
  unfold storeSession
  rw [hf]
  simp only [Option.isSome_none, Bool.false_eq_true, if_false]
  unfold lookupSession
  rw [List.find?_append, hf]
  simp

/-- C9 counterexample: for an unseen session id the media-upload
endpoint does not return a not-found error — it answers 200 with the
description (and leaves the store untouched) — while the report
endpoint does return 404. -/
theorem media_unknown_session_ok_counterexample :
    upload_media [] "ghost-session" "[Unsupported File Type]" =
      ([], ApiResult.ok "[Unsupported File Type]") ∧
    get_report [] "ghost-session" =
      ApiResult.httpError 404 "Session not found" ∧
    (upload_media [] "ghost-session" "[Unsupported File Type]").2 ≠
      ApiResult.httpError 404 "Session not found" := by
  refine ⟨rfl, rfl, ?_⟩
  decide

/-- C9 amended: for an unseen session id the report endpoint returns a
user-visible 404 and the chat endpoint never does (it creates the
session on first sight and answers 200 with the reply); the
media-upload endpoint, however, also never returns not-found — it
answers 200 with the media description and silently skips the
history injection. -/
theorem session_not_found_only_on_report (ss : List (String × Session))
    (sid message description : String) (env : MsgEnv)
    (hun : lookupSession ss sid = none) :
    get_report ss sid = ApiResult.httpError 404 "Session not found" ∧
    upload_media ss sid description = (ss, ApiResult.ok description) ∧
    (chat_endpoint ss sid message env).2 =
      ApiResult.ok (chat_step (initSession message) env).2 ∧
    lookupSession (chat_endpoint ss sid message env).1 sid =
      some (chat_step (initSession message) env).1 := by
  refine ⟨?_, ?_, ?_, ?_⟩
  · unfold get_report
    rw [hun]
  · unfold upload_media
    rw [hun]
  · unfold chat_endpoint
    rw [hun]
  · unfold chat_endpoint
    rw [hun]
    exact lookupSession_store_new ss sid _ hun

/-- Witness for `session_not_found_only_on_report` at the empty store. -/
theorem session_not_found_only_on_report_witness :
    get_report [] "s1" = ApiResult.httpError 404 "Session not found" ∧
    upload_media [] "s1" "[Image Content: hi]" =
      ([], ApiResult.ok "[Image Content: hi]") := by
  have h := session_not_found_only_on_report [] "s1" "hello" "[Image Content: hi]"
    { redacted := "hello", classifyOut := none,
      genProof := fun _ _ => "proof_q.png", llmReply := "namaste" } rfl
  exact ⟨h.1, h.2.1⟩

end Honeypot
